import Mathlib

/-!
Verification of the RS485 packet protocol engine of the Enersion repository
(`SW_Controller_ANA/Core/Src/rs485_protocol.c` and its header
`rs485_protocol.h`).

The C module is shallowly embedded.  The file-scope mutable state becomes
an explicit record threaded through the operations: `Core` holds the state
the packet layer reads and writes (`myAddress`, `status`, the
`commandHandlers` table) and `Node` extends it with the receive-path state
(the framer's static locals and the `txInProgress` flag) — the grouping
only reflects that `RS485_ProcessPacket` and the transmit path never touch
the framer state.  Machine integers become `Nat` with explicit `% 2^32`
where the C increments `uint32_t` counters, and the bytes written to the
UART become an explicit `Effects` output record.  `HAL_GetTick` values are
modelled as monotone `Nat` ticks, so the C's `uint32_t` tick subtraction
`now - lastByteTime` is `Nat` subtraction.  `HAL_UART_Transmit` is modelled
as always succeeding (`HAL_OK`); hardware transmit faults are outside the
embedding.  `memcpy` of the little-endian Cortex-M `uint32_t`/`uint16_t`
status fields into the status payload is modelled by explicit little-endian
byte serialization.
-/

namespace Enersion

set_option maxRecDepth 1000000

/-! ## CRC16 codec (`RS485_CalculateCRC`, rs485_protocol.c lines 237-253) -/

/-- One iteration of the inner `for (j = 0; j < 8; j++)` loop of
`RS485_CalculateCRC`: `if (crc & 0x0001) crc = (crc >> 1) ^ 0xA001; else crc >>= 1;`. -/
def crcShift (crc : Nat) : Nat :=
  if crc &&& 0x0001 ≠ 0 then (crc >>> 1) ^^^ 0xA001 else crc >>> 1

/-- One iteration of the outer loop of `RS485_CalculateCRC`:
`crc ^= data[i]` followed by eight `crcShift` steps. -/
def crcByteStep (crc b : Nat) : Nat :=
  crcShift^[8] (crc ^^^ b)

/-- `RS485_CalculateCRC(data, length)`: CRC16 with initial value 0xFFFF,
processed one input byte at a time. -/
def RS485_CalculateCRC (data : List Nat) : Nat :=
  data.foldl crcByteStep 0xFFFF

/-- Reference bit-serial step of the reflected CRC16 with polynomial 0xA001:
the next input bit (LSB-first) is XORed into the low bit of the register,
then the register is shifted right one bit, XORing in the polynomial when
the bit shifted out was set.  This follows the spec's words: "polynomial
0xA001, initial value 0xFFFF, processed ... LSB-first bit order". -/
def crcBitStep (crc bit : Nat) : Nat :=
  crcShift (crc ^^^ bit)

/-- Reference processing of one byte, one bit at a time, LSB first. -/
def crcByteStepBitwise (crc b : Nat) : Nat :=
  (List.range 8).foldl (fun c k => crcBitStep c ((b >>> k) &&& 1)) crc

/-- Reference reflected CRC16 (poly 0xA001, init 0xFFFF, no final XOR),
consuming the input bit-serially, LSB of each byte first. -/
def crc16Bitwise (data : List Nat) : Nat :=
  data.foldl crcByteStepBitwise 0xFFFF

/-! ## Data model (rs485_protocol.h) -/

/-- `RS485_Packet_t` as handed to a command handler (the `startByte`,
`checksum` and `endByte` fields are never read by the dispatch path, so the
embedding keeps only the fields `RS485_ProcessPacket` fills in). -/
structure RS485_Packet where
  destAddr : Nat
  srcAddr : Nat
  command : Nat
  length : Nat
  data : List Nat
deriving Repr, DecidableEq

/-- `RS485_Status_t`. -/
structure RS485_Status where
  mcuId : Nat
  health : Nat
  uptime : Nat
  errorCount : Nat
  rxPacketCount : Nat
  txPacketCount : Nat
deriving Repr, DecidableEq

/-- The four command handlers registered by `RS485_Init`. -/
inductive HandlerId
  | ping
  | getVersion
  | heartbeat
  | getStatus
deriving Repr, DecidableEq

/-- The state read and written by the packet layer (`RS485_SendPacket`,
`RS485_ProcessPacket` and the handlers): the globals `myAddress`, `status`
and `commandHandlers`. -/
structure Core where
  myAddress : Nat
  status : RS485_Status
  handlers : Nat → Option HandlerId

/-- The static locals of `RS485_ProcessReceivedByte`: `packetBuffer` together
with `packetIndex` (here the list `buf`, with `packetIndex = buf.length`),
`expectedLength` and `lastByteTime`. -/
structure Framer where
  buf : List Nat
  expectedLength : Nat
  lastByteTime : Nat
deriving Repr, DecidableEq

/-- The whole file-scope mutable state of rs485_protocol.c. -/
structure Node where
  core : Core
  framer : Framer
  txInProgress : Bool

/-- Observable output of a protocol operation: the frames written to the
UART by `RS485_SendPacket`, the packets assembled and handed past the
checksum and address checks by `RS485_ProcessPacket` (line 299 of the C),
and the command codes whose registered handler was invoked (line 310). -/
structure Effects where
  frames : List (List Nat)
  dispatched : List RS485_Packet
  handlerCalls : List Nat
deriving Repr, DecidableEq

/-- Empty effects. -/
def Effects.nil : Effects := ⟨[], [], []⟩

/-- Sequential composition of effects. -/
def Effects.app (a b : Effects) : Effects :=
  ⟨a.frames ++ b.frames, a.dispatched ++ b.dispatched,
   a.handlerCalls ++ b.handlerCalls⟩

/-- A `uint32_t` increment: `x++` on a 32-bit counter. -/
def inc32 (x : Nat) : Nat := (x + 1) % 4294967296

/-! ## Transmit path (`RS485_SendPacket` and friends, lines 89-208) -/

/-- The byte sequence `RS485_SendPacket` builds in `txBuffer` (lines
119-132): start sentinel, destination, source, command, length, payload,
CRC low byte, CRC high byte, end sentinel; the CRC is computed over
`{dest, src, command, length, payload}` (lines 107-115). -/
def serializeFrame (destAddr srcAddr cmd : Nat) (data : List Nat) : List Nat :=
  let crc := RS485_CalculateCRC ([destAddr, srcAddr, cmd, data.length] ++ data)
  [0xAA, destAddr, srcAddr, cmd, data.length] ++ data
    ++ [crc &&& 0xFF, (crc >>> 8) &&& 0xFF, 0x55]

/-- `RS485_SendPacket`: rejects payloads longer than 250 bytes
(`HAL_ERROR`, no state change); otherwise drives the serialized frame onto
the bus and increments `txPacketCount` (hardware transmission modelled as
succeeding). -/
def RS485_SendPacket (n : Core) (destAddr cmd : Nat) (data : List Nat) :
    Core × Effects :=
  if data.length > 250 then (n, Effects.nil)
  else
    ({n with status := {n.status with txPacketCount := inc32 n.status.txPacketCount}},
     ⟨[serializeFrame destAddr n.myAddress cmd data], [], []⟩)

/-- `RS485_SendResponse` just forwards to `RS485_SendPacket`. -/
def RS485_SendResponse (n : Core) (destAddr cmd : Nat) (data : List Nat) :
    Core × Effects :=
  RS485_SendPacket n destAddr cmd data

/-- `RS485_SendError`: a `CMD_ERROR_RESPONSE` (0xFF) packet whose payload is
the error code followed by the node's own address. -/
def RS485_SendError (n : Core) (destAddr err : Nat) : Core × Effects :=
  RS485_SendPacket n destAddr 0xFF [err, n.myAddress]

/-! ## Command handlers (lines 321-376) -/

/-- `FW_VERSION_MAJOR` (version.h of the node firmware). -/
def FW_VERSION_MAJOR : Nat := 1
/-- `FW_VERSION_MINOR`. -/
def FW_VERSION_MINOR : Nat := 1
/-- `FW_VERSION_PATCH`. -/
def FW_VERSION_PATCH : Nat := 0
/-- `FW_BUILD_NUMBER`. -/
def FW_BUILD_NUMBER : Nat := 2

/-- Little-endian bytes of a `uint32_t` as laid out in memory on the
(little-endian) Cortex-M target, as read by `memcpy` in
`RS485_HandleGetStatus`. -/
def le4 (x : Nat) : List Nat :=
  [x &&& 0xFF, (x >>> 8) &&& 0xFF, (x >>> 16) &&& 0xFF, (x >>> 24) &&& 0xFF]

/-- First two little-endian bytes of a `uint32_t` (the C copies only two
bytes of `txPacketCount` into the status payload). -/
def le2 (x : Nat) : List Nat :=
  [x &&& 0xFF, (x >>> 8) &&& 0xFF]

/-- `RS485_HandlePing`: empty `CMD_PING_RESPONSE` (0x02) to the source. -/
def RS485_HandlePing (n : Core) (p : RS485_Packet) : Core × Effects :=
  RS485_SendResponse n p.srcAddr 0x02 []

/-- `RS485_HandleGetVersion`: `CMD_VERSION_RESPONSE` (0x04) with the
firmware version tuple, the node address and three reserved zero bytes. -/
def RS485_HandleGetVersion (n : Core) (p : RS485_Packet) : Core × Effects :=
  RS485_SendResponse n p.srcAddr 0x04
    [FW_VERSION_MAJOR, FW_VERSION_MINOR, FW_VERSION_PATCH, FW_BUILD_NUMBER,
     n.myAddress, 0, 0, 0]

/-- `RS485_HandleHeartbeat`: `CMD_HEARTBEAT_RESPONSE` (0x06) with the node
address and health. -/
def RS485_HandleHeartbeat (n : Core) (p : RS485_Packet) : Core × Effects :=
  RS485_SendResponse n p.srcAddr 0x06 [n.myAddress, n.status.health]

/-- `RS485_HandleGetStatus`: `CMD_STATUS_RESPONSE` (0x11) with the 16-byte
status payload `[mcuId, health, uptime(u32 LE), errorCount(u32 LE),
rxPacketCount(u32 LE), txPacketCount(first 2 bytes LE)]`. -/
def RS485_HandleGetStatus (n : Core) (p : RS485_Packet) : Core × Effects :=
  RS485_SendResponse n p.srcAddr 0x11
    ([n.status.mcuId, n.status.health] ++ le4 n.status.uptime
      ++ le4 n.status.errorCount ++ le4 n.status.rxPacketCount
      ++ le2 n.status.txPacketCount)

/-- Invocation of a registered handler through the `commandHandlers` table. -/
def runHandler : HandlerId → Core → RS485_Packet → Core × Effects
  | .ping, n, p => RS485_HandlePing n p
  | .getVersion, n, p => RS485_HandleGetVersion n p
  | .heartbeat, n, p => RS485_HandleHeartbeat n p
  | .getStatus, n, p => RS485_HandleGetStatus n p

/-! ## Receive path (lines 260-455) -/

/-- `RS485_ProcessPacket` (lines 260-314): parse the raw buffer, verify the
CRC (on mismatch count an error and answer `RS485_ERR_INVALID_CHECKSUM`),
apply the destination filter (silently ignore frames for other nodes),
count the received packet, build the `RS485_Packet_t` and dispatch it to
the registered handler, answering `RS485_ERR_INVALID_COMMAND` when none is
registered. -/
def RS485_ProcessPacket (n : Core) (buffer : List Nat) : Core × Effects :=
  let destAddr := buffer[1]!
  let srcAddr := buffer[2]!
  let command := buffer[3]!
  let length := buffer[4]!
  let data := (buffer.drop 5).take length
  let receivedCRC := buffer[5 + length]! ||| (buffer[5 + length + 1]! <<< 8)
  let calculatedCRC := RS485_CalculateCRC ([destAddr, srcAddr, command, length] ++ data)
  if calculatedCRC ≠ receivedCRC then
    let n1 : Core :=
      {n with status := {n.status with errorCount := inc32 n.status.errorCount}}
    RS485_SendError n1 srcAddr 0x01
  else if destAddr ≠ n.myAddress ∧ destAddr ≠ 0x00 then
    (n, Effects.nil)
  else
    let n1 : Core :=
      {n with status := {n.status with rxPacketCount := inc32 n.status.rxPacketCount}}
    let packet : RS485_Packet :=
      ⟨destAddr, srcAddr, command, length,
       if 0 < length ∧ length ≤ 250 then data else []⟩
    match n1.handlers command with
    | some h =>
      let r := runHandler h n1 packet
      (r.1, ⟨r.2.frames, [packet], command :: r.2.handlerCalls⟩)
    | none =>
      let r := RS485_SendError n1 srcAddr 0x03
      (r.1, ⟨r.2.frames, [packet], []⟩)

/-- `RS485_ProcessReceivedByte` (lines 404-455): the one-byte-at-a-time
framer.  A gap of more than 500 ticks with a partial frame pending resets
the parser; while idle, bytes other than the 0xAA start sentinel are
dropped; at the fifth byte the length field fixes the expected total; on
completion the end sentinel is checked and the buffer handed to
`RS485_ProcessPacket` (wrong sentinel counts an error instead); reaching
`RS485_MAX_PACKET_SIZE` (256) bytes without completion counts an overflow
error and resets. -/
def RS485_ProcessReceivedByte (n : Node) (now b : Nat) : Node × Effects :=
  let f0 := n.framer
  let f1 := if now - f0.lastByteTime > 500 ∧ f0.buf.length > 0 then
      {f0 with buf := [], expectedLength := 0}
    else f0
  let f2 := {f1 with lastByteTime := now}
  if f2.buf.length = 0 ∧ b ≠ 0xAA then
    ({n with framer := f2}, Effects.nil)
  else
    let buf := f2.buf ++ [b]
    let el := if buf.length = 5 then buf[4]! else f2.expectedLength
    if buf.length ≥ 8 ∧ buf.length ≥ 5 + el + 3 then
      if buf[buf.length - 1]! = 0x55 then
        let r := RS485_ProcessPacket n.core buf
        ({n with
           core := r.1,
           framer := {buf := [], expectedLength := 0, lastByteTime := now}}, r.2)
      else
        ({n with
           core := {n.core with status := {n.core.status with errorCount := inc32 n.core.status.errorCount}},
           framer := {buf := [], expectedLength := 0, lastByteTime := now}},
         Effects.nil)
    else if buf.length ≥ 256 then
      ({n with
         core := {n.core with status := {n.core.status with errorCount := inc32 n.core.status.errorCount}},
         framer := {buf := [], expectedLength := 0, lastByteTime := now}},
       Effects.nil)
    else
      ({n with framer := {f2 with buf := buf, expectedLength := el}}, Effects.nil)

/-- `HAL_UART_RxCpltCallback` (lines 383-397): bytes received while
`txInProgress` is set are dropped without touching any state (loopback
suppression); otherwise the byte is fed to the framer. -/
def HAL_UART_RxCpltCallback (n : Node) (now b : Nat) : Node × Effects :=
  if n.txInProgress then (n, Effects.nil)
  else RS485_ProcessReceivedByte n now b

/-- Delivery of a sequence of timestamped bytes to the receive callback,
collecting the effects. -/
def feedTimed (n : Node) : List (Nat × Nat) → Node × Effects
  | [] => (n, Effects.nil)
  | (t, b) :: rest =>
    let r1 := HAL_UART_RxCpltCallback n t b
    let r2 := feedTimed r1.1 rest
    (r2.1, r1.2.app r2.2)

/-- Delivery of a sequence of bytes all arriving at tick `t`. -/
def feedBytes (n : Node) (t : Nat) (bs : List Nat) : Node × Effects :=
  feedTimed n (bs.map fun b => (t, b))

/-! ## Initialization (lines 44-69, 216-220) -/

/-- `RS485_RegisterCommandHandler`: overwrite the table entry for `cmd`. -/
def RS485_RegisterCommandHandler (n : Node) (cmd : Nat) (h : HandlerId) : Node :=
  {n with core := {n.core with handlers := fun c => if c = cmd then some h else n.core.handlers c}}

/-- `RS485_Init(myAddr)`: zero the status, set `mcuId` and `health = 100`,
clear the parser, and register the four default handlers
(`CMD_PING = 0x01`, `CMD_GET_VERSION = 0x03`, `CMD_HEARTBEAT = 0x05`,
`CMD_GET_STATUS = 0x10`). -/
def RS485_Init (myAddr : Nat) : Node :=
  let n : Node :=
    { core :=
        { myAddress := myAddr,
          status := { mcuId := myAddr, health := 100, uptime := 0,
                      errorCount := 0, rxPacketCount := 0, txPacketCount := 0 },
          handlers := fun _ => none },
      framer := { buf := [], expectedLength := 0, lastByteTime := 0 },
      txInProgress := false }
  RS485_RegisterCommandHandler
    (RS485_RegisterCommandHandler
      (RS485_RegisterCommandHandler
        (RS485_RegisterCommandHandler n 0x01 .ping) 0x03 .getVersion)
      0x05 .heartbeat)
    0x10 .getStatus

/-! ## Transmit-window trace (`RS485_SendPacket` lines 134-168)

The half-duplex critical section is modelled as the ordered list of
externally visible actions `RS485_SendPacket` performs. -/

/-- One externally visible action of the transmit critical section. -/
inductive BusAction
  | setTxFlag
  | disableRxIrq
  | driverEnable
  | settleDelay
  | txByte (b : Nat)
  | waitTxComplete
  | driverDisable
  | enableRxIrq
  | clearTxFlag
deriving Repr, DecidableEq

/-- The action sequence of `RS485_SendPacket` for an accepted payload:
set `txInProgress`, mask the RX interrupt, assert the driver-enable line,
wait the settling delay, write the whole frame, await transmission
complete, wait the settling delay, return the line to receive mode,
unmask the RX interrupt, clear `txInProgress`.  A payload longer than 250
bytes is rejected before any action. -/
def sendPacketActions (n : Core) (destAddr cmd : Nat) (data : List Nat) :
    List BusAction :=
  if data.length > 250 then []
  else
    [.setTxFlag, .disableRxIrq, .driverEnable, .settleDelay]
      ++ (serializeFrame destAddr n.myAddress cmd data).map .txByte
      ++ [.waitTxComplete, .settleDelay, .driverDisable, .enableRxIrq, .clearTxFlag]

/-! ## Effects algebra -/

@[simp]
lemma Effects.app_nil (e : Effects) : e.app Effects.nil = e := by
  cases e; simp [Effects.app, Effects.nil]

@[simp]
lemma Effects.nil_app (e : Effects) : Effects.nil.app e = e := by
  cases e; simp [Effects.app, Effects.nil]

lemma Effects.app_assoc (a b c : Effects) :
    (a.app b).app c = a.app (b.app c) := by
  cases a; cases b; cases c; simp [Effects.app]

/-! ## CRC16 lemmas -/

lemma crcShift_lt {c : Nat} (h : c < 2 ^ 16) : crcShift c < 2 ^ 16 := by
  unfold crcShift
  have h1 : c >>> 1 < 2 ^ 16 := by
    rw [Nat.shiftRight_one]; omega
  split
  · exact Nat.xor_lt_two_pow h1 (by norm_num)
  · exact h1

lemma iterate_crcShift_lt (k : Nat) {c : Nat} (h : c < 2 ^ 16) :
    crcShift^[k] c < 2 ^ 16 := by
  induction k with
  | zero => simpa using h
  | succ k ih => rw [Function.iterate_succ_apply']; exact crcShift_lt ih

lemma crcByteStep_lt {c b : Nat} (hc : c < 2 ^ 16) (hb : b < 2 ^ 16) :
    crcByteStep c b < 2 ^ 16 :=
  iterate_crcShift_lt 8 (Nat.xor_lt_two_pow hc hb)

lemma foldl_crcByteStep_lt (data : List Nat) :
    ∀ c : Nat, c < 2 ^ 16 → (∀ b ∈ data, b < 2 ^ 16) →
      data.foldl crcByteStep c < 2 ^ 16 := by
  induction data with
  | nil => intro c hc _; simpa using hc
  | cons a l ih =>
    intro c hc hmem
    simp only [List.foldl_cons]
    exact ih _ (crcByteStep_lt hc (hmem a (by simp))) fun b hb => hmem b (by simp [hb])

/-- The CRC register stays a 16-bit value on byte-valued input. -/
lemma calculateCRC_lt (data : List Nat) (h : ∀ b ∈ data, b < 2 ^ 16) :
    RS485_CalculateCRC data < 2 ^ 16 :=
  foldl_crcByteStep_lt data 0xFFFF (by norm_num) h

lemma shiftRight_xor (a b n : Nat) : (a ^^^ b) >>> n = (a >>> n) ^^^ (b >>> n) := by
  apply Nat.eq_of_testBit_eq; intro i
  simp [Nat.testBit_shiftRight, Nat.testBit_xor]

/-- Splitting one input bit off the XOR of a whole byte into the CRC
register: XORing `e` in and shifting once is the same as XORing in only the
low bit of `e`, shifting, and keeping `e >>> 1` for the later rounds. -/
lemma crcShift_xor (d e : Nat) :
    crcShift (d ^^^ e) = crcShift (d ^^^ (e &&& 1)) ^^^ (e >>> 1) := by
  have hA : (d ^^^ e) &&& 1 = (d ^^^ (e &&& 1)) &&& 1 := by
    rw [Nat.and_xor_distrib_right, Nat.and_xor_distrib_right, Nat.and_assoc,
      Nat.and_self]
  have hsr : (d ^^^ e) >>> 1 = (d >>> 1) ^^^ (e >>> 1) := shiftRight_xor d e 1
  have hlow : (e &&& 1) >>> 1 = 0 := by
    have : e &&& 1 < 2 := by rw [Nat.and_one_is_mod]; exact Nat.mod_lt _ (by norm_num)
    rw [Nat.shiftRight_one]; omega
  have hsr2 : (d ^^^ (e &&& 1)) >>> 1 = d >>> 1 := by
    rw [shiftRight_xor, hlow, Nat.xor_zero]
  unfold crcShift
  rw [hA, hsr, hsr2]
  split
  · rw [Nat.xor_assoc, Nat.xor_comm (e >>> 1) 0xA001, ← Nat.xor_assoc]
  · rfl

/-- Unrolling `k` register shifts against the bit-serial reference: after
`k` rounds the byte-at-once register differs from the bit-serial one
exactly by the not-yet-consumed high bits `e >>> k`. -/
lemma iterate_crcShift_xor (k : Nat) : ∀ d e : Nat,
    crcShift^[k] (d ^^^ e) =
      ((List.range k).foldl (fun c j => crcBitStep c ((e >>> j) &&& 1)) d) ^^^ (e >>> k) := by
  induction k with
  | zero => intro d e; simp
  | succ k ih =>
    intro d e
    rw [Function.iterate_succ_apply', ih, List.range_succ, List.foldl_append]
    simp only [List.foldl_cons, List.foldl_nil]
    rw [crcShift_xor, ← Nat.shiftRight_add e k 1]
    rfl

/-- Processing a byte at once (`RS485_CalculateCRC`'s inner loop) agrees
with the bit-serial LSB-first reference on byte-valued input. -/
lemma crcByteStep_eq_bitwise (c b : Nat) (hb : b < 256) :
    crcByteStep c b = crcByteStepBitwise c b := by
  unfold crcByteStep crcByteStepBitwise
  rw [iterate_crcShift_xor 8 c b]
  have h8 : b >>> 8 = 0 := by
    rw [Nat.shiftRight_eq_div_pow]; exact Nat.div_eq_of_lt (by omega)
  rw [h8, Nat.xor_zero]

lemma foldl_crcByteStep_eq_bitwise (data : List Nat) :
    ∀ c : Nat, (∀ b ∈ data, b < 256) →
      data.foldl crcByteStep c = data.foldl crcByteStepBitwise c := by
  induction data with
  | nil => intro c _; rfl
  | cons a l ih =>
    intro c hmem
    simp only [List.foldl_cons]
    rw [crcByteStep_eq_bitwise c a (hmem a (by simp))]
    exact ih _ fun b hb => hmem b (by simp [hb])

/-- Claim C2: `RS485_CalculateCRC` is (as a Lean function of the byte list,
hence pure and deterministic by construction) exactly the reflected CRC16
with polynomial 0xA001, initial value 0xFFFF, processed LSB-first with no
final XOR: it agrees with the bit-serial reference `crc16Bitwise` on every
byte sequence, the empty sequence yields 0xFFFF, and the standard
CRC-16/MODBUS check vector "123456789" yields 0x4B37. -/
theorem claim_C2_crc_standard (data : List Nat) (h : ∀ b ∈ data, b < 256) :
    RS485_CalculateCRC data = crc16Bitwise data
    ∧ RS485_CalculateCRC [] = 0xFFFF
    ∧ RS485_CalculateCRC [0x31, 0x32, 0x33, 0x34, 0x35, 0x36, 0x37, 0x38, 0x39] = 0x4B37 := by
  refine ⟨foldl_crcByteStep_eq_bitwise data 0xFFFF h, rfl, by decide⟩

/-- Witness for C2 at the concrete input `[0xAA, 0x02, 0x10]`. -/
theorem claim_C2_crc_standard_witness :
    (∀ b ∈ [0xAA, 0x02, 0x10], b < 256)
    ∧ RS485_CalculateCRC [0xAA, 0x02, 0x10] = crc16Bitwise [0xAA, 0x02, 0x10] :=
  ⟨by decide, (claim_C2_crc_standard [0xAA, 0x02, 0x10] (by decide)).1⟩

/-! ## Framer step lemmas -/

lemma getElem!_concat_length (l : List Nat) (a : Nat) : (l ++ [a])[l.length]! = a := by
  rw [getElem!_pos (l ++ [a]) l.length (by simp)]
  simp

/-- While idle and not transmitting, the 0xAA start sentinel opens a frame. -/
lemma step_start (n : Node) (now : Nat) (hbuf : n.framer.buf = [])
    (htx : n.txInProgress = false) :
    HAL_UART_RxCpltCallback n now 0xAA =
      ({n with framer := {buf := [0xAA], expectedLength := n.framer.expectedLength, lastByteTime := now}},
       Effects.nil) := by
  simp [HAL_UART_RxCpltCallback, RS485_ProcessReceivedByte, htx, hbuf]

/-- A start sentinel arriving after a more-than-500-tick gap with a partial
frame pending first resets the parser, then opens a fresh frame. -/
lemma step_start_timeout (n : Node) (now : Nat) (hbuf : n.framer.buf ≠ [])
    (ht : now - n.framer.lastByteTime > 500) (htx : n.txInProgress = false) :
    HAL_UART_RxCpltCallback n now 0xAA =
      ({n with framer := {buf := [0xAA], expectedLength := 0, lastByteTime := now}},
       Effects.nil) := by
  have hlen : n.framer.buf.length > 0 := List.length_pos.mpr hbuf
  simp [HAL_UART_RxCpltCallback, RS485_ProcessReceivedByte, htx, ht, hlen]

/-- Mid-frame byte accumulation: with no timeout, no completion and no
overflow, the byte is appended and the length field is latched at the
fifth byte. -/
lemma step_append (n : Node) (now b : Nat)
    (hne : n.framer.buf ≠ [])
    (hnt : now - n.framer.lastByteTime ≤ 500)
    (htx : n.txInProgress = false)
    (hel : n.framer.buf.length + 1 < 8
        ∨ n.framer.buf.length + 1 < 5 + (if n.framer.buf.length + 1 = 5 then b
            else n.framer.expectedLength) + 3)
    (hof : n.framer.buf.length + 1 < 256) :
    HAL_UART_RxCpltCallback n now b =
      ({n with framer := {buf := n.framer.buf ++ [b], expectedLength := if n.framer.buf.length + 1 = 5 then b else n.framer.expectedLength, lastByteTime := now}},
       Effects.nil) := by
  have hntf : ¬ (500 < now - n.framer.lastByteTime) := by omega
  have hpos : 0 < n.framer.buf.length := List.length_pos.mpr hne
  have hnz : ¬ (n.framer.buf.length = 0) := by omega
  by_cases h5 : n.framer.buf.length + 1 = 5
  · have h4 : n.framer.buf.length = 4 := by omega
    have hb4 : (n.framer.buf ++ [b])[4]! = b := by
      rw [show (4 : Nat) = n.framer.buf.length from h4.symm]
      exact getElem!_concat_length _ _
    simp [HAL_UART_RxCpltCallback, RS485_ProcessReceivedByte, htx, hntf, hnz,
      h5, hb4, h4]
  · have hcomp : ¬ (n.framer.buf.length + 1 ≥ 8 ∧ n.framer.buf.length + 1 ≥ 5 + n.framer.expectedLength + 3) := by
      rcases hel with h | h
      · omega
      · simp only [h5, if_false] at h; omega
    simp [HAL_UART_RxCpltCallback, RS485_ProcessReceivedByte, htx, hntf, hnz, h5, hof]
    rw [if_neg (by omega : ¬ (7 ≤ n.framer.buf.length ∧ 5 + n.framer.expectedLength + 2 ≤ n.framer.buf.length)),
      if_neg (by omega : ¬ 255 ≤ n.framer.buf.length)]

/-- Completion step: when the byte that reaches the expected total length
arrives, the end sentinel decides between dispatching the assembled buffer
to `RS485_ProcessPacket` and counting a framing error. -/
lemma step_final (n : Node) (t z : Nat)
    (htx : n.txInProgress = false)
    (hne : n.framer.buf ≠ [])
    (hnt : t - n.framer.lastByteTime ≤ 500)
    (hcomp : n.framer.buf.length + 1 = 8 + n.framer.expectedLength) :
    HAL_UART_RxCpltCallback n t z =
      if z = 0x55 then
        ({n with core := (RS485_ProcessPacket n.core (n.framer.buf ++ [z])).1, framer := {buf := [], expectedLength := 0, lastByteTime := t}},
         (RS485_ProcessPacket n.core (n.framer.buf ++ [z])).2)
      else
        ({n with
           core := {n.core with status := {n.core.status with errorCount := inc32 n.core.status.errorCount}},
           framer := {buf := [], expectedLength := 0, lastByteTime := t}},
         Effects.nil) := by
  have hntf : ¬ (500 < t - n.framer.lastByteTime) := by omega
  have hpos : 0 < n.framer.buf.length := List.length_pos.mpr hne
  have hnz : ¬ (n.framer.buf.length = 0) := by omega
  have h5 : ¬ (n.framer.buf.length + 1 = 5) := by omega
  have hend : (n.framer.buf ++ [z])[n.framer.buf.length]! = z := getElem!_concat_length _ _
  simp [HAL_UART_RxCpltCallback, RS485_ProcessReceivedByte, htx, hntf, hnz, h5, hend]
  intro h
  exact absurd (h (by omega)) (by omega)

/-- Mid-frame bytes that can neither complete the frame nor overflow the
buffer are accumulated verbatim. -/
lemma feed_mid (mid : List Nat) : ∀ (n : Node) (t : Nat),
    n.txInProgress = false →
    5 ≤ n.framer.buf.length →
    n.framer.lastByteTime = t →
    n.framer.buf.length + mid.length ≤ 7 + n.framer.expectedLength →
    n.framer.buf.length + mid.length ≤ 255 →
    feedTimed n (mid.map fun b => (t, b)) =
      ({n with framer := {buf := n.framer.buf ++ mid, expectedLength := n.framer.expectedLength, lastByteTime := t}},
       Effects.nil) := by
  induction mid with
  | nil =>
    intro n t htx h5 hlast hlen hof
    subst hlast
    simp only [List.map_nil, feedTimed, List.append_nil]
  | cons b mid ih =>
    intro n t htx h5 hlast hlen hof
    have hb5 : ¬ (n.framer.buf.length + 1 = 5) := by omega
    simp only [List.length_cons] at hlen hof
    simp only [List.map_cons, feedTimed]
    rw [step_append n t b (List.length_pos.mp (by omega)) (by rw [hlast]; omega) htx
      (Or.inr (by rw [if_neg hb5]; omega)) (by omega)]
    rw [if_neg hb5]
    have ihx := ih ({n with framer := {buf := n.framer.buf ++ [b], expectedLength := n.framer.expectedLength, lastByteTime := t}}) t
      htx (by simp; omega) rfl (by simp; omega) (by simp; omega)
    dsimp only
    rw [ihx]
    simp [List.append_assoc]

lemma feedTimed_append (l1 l2 : List (Nat × Nat)) : ∀ n : Node,
    feedTimed n (l1 ++ l2) =
      ((feedTimed (feedTimed n l1).1 l2).1,
       (feedTimed n l1).2.app (feedTimed (feedTimed n l1).1 l2).2) := by
  induction l1 with
  | nil => intro n; simp [feedTimed]
  | cons a l ih =>
    intro n
    obtain ⟨t, b⟩ := a
    simp only [List.cons_append, feedTimed]
    simp only [List.append_eq]
    rw [ih]
    simp [Effects.app_assoc]

lemma feedTimed_single (n : Node) (t b : Nat) :
    feedTimed n [(t, b)] = HAL_UART_RxCpltCallback n t b := by
  simp [feedTimed]

/-- The four header bytes after the start sentinel accumulate, and the
fifth byte of the frame is latched as the expected payload length. -/
lemma feed_header (co : Core) (fe t d s c l : Nat) :
    feedTimed ⟨co, ⟨[0xAA], fe, t⟩, false⟩ [(t, d), (t, s), (t, c), (t, l)] =
      (⟨co, ⟨[0xAA, d, s, c, l], l, t⟩, false⟩, Effects.nil) := by
  simp [feedTimed, HAL_UART_RxCpltCallback, RS485_ProcessReceivedByte]

/-- Feeding everything after the start sentinel of a raw frame
`AA d s c len p x y z`: the frame completes, and the end sentinel decides
between packet processing and a framing error. -/
lemma feed_frame_tail (co : Core) (fe t d s c : Nat) (p : List Nat) (x y z : Nat)
    (hl : p.length ≤ 248) :
    feedTimed ⟨co, ⟨[0xAA], fe, t⟩, false⟩ (([d, s, c, p.length] ++ p ++ [x, y, z]).map fun b => (t, b)) =
      (if z = 0x55 then
        (⟨(RS485_ProcessPacket co ([0xAA, d, s, c, p.length] ++ p ++ [x, y, z])).1, ⟨[], 0, t⟩, false⟩,
         (RS485_ProcessPacket co ([0xAA, d, s, c, p.length] ++ p ++ [x, y, z])).2)
      else
        (⟨{co with status := {co.status with errorCount := inc32 co.status.errorCount}}, ⟨[], 0, t⟩, false⟩,
         Effects.nil)) := by
  have hsplit : (([d, s, c, p.length] ++ p ++ [x, y, z]).map fun b => (t, b))
      = [(t, d), (t, s), (t, c), (t, p.length)] ++ (((p ++ [x, y]).map fun b => (t, b)) ++ [(t, z)]) := by
    simp
  rw [hsplit, feedTimed_append, feed_header]
  dsimp only
  rw [feedTimed_append]
  rw [feed_mid (p ++ [x, y]) ⟨co, ⟨[0xAA, d, s, c, p.length], p.length, t⟩, false⟩ t
    rfl (by simp) rfl
    (by simp only [List.length_append, List.length_cons, List.length_nil]; omega)
    (by simp only [List.length_append, List.length_cons, List.length_nil]; omega)]
  dsimp only
  simp only [feedTimed]
  rw [step_final ⟨co, ⟨[0xAA, d, s, c, p.length] ++ (p ++ [x, y]), p.length, t⟩, false⟩ t z
    rfl (by simp) (by simp)
    (by simp only [List.length_append, List.length_cons, List.length_nil]; omega)]
  dsimp only
  by_cases hz : z = 0x55
  · simp [hz, List.append_assoc]
  · simp [hz]

/-- Feeding a whole raw frame `AA d s c len p x y z` byte by byte into an
idle framer: the frame completes, and the end sentinel decides between
packet processing and a framing error. -/
lemma feed_raw_frame (n : Node) (t d s c : Nat) (p : List Nat) (x y z : Nat)
    (hl : p.length ≤ 248) (hbuf : n.framer.buf = []) (htx : n.txInProgress = false) :
    feedBytes n t ([0xAA, d, s, c, p.length] ++ p ++ [x, y, z]) =
      (if z = 0x55 then
        ({n with core := (RS485_ProcessPacket n.core ([0xAA, d, s, c, p.length] ++ p ++ [x, y, z])).1, framer := {buf := [], expectedLength := 0, lastByteTime := t}},
         (RS485_ProcessPacket n.core ([0xAA, d, s, c, p.length] ++ p ++ [x, y, z])).2)
      else
        ({n with
           core := {n.core with status := {n.core.status with errorCount := inc32 n.core.status.errorCount}},
           framer := {buf := [], expectedLength := 0, lastByteTime := t}},
         Effects.nil)) := by
  obtain ⟨co, ⟨fb, fe, ft⟩, tx⟩ := n
  dsimp only at hbuf htx
  subst hbuf htx
  unfold feedBytes
  have hsplit : (([0xAA, d, s, c, p.length] ++ p ++ [x, y, z]).map fun b => (t, b))
      = [(t, 0xAA)] ++ (([d, s, c, p.length] ++ p ++ [x, y, z]).map fun b => (t, b)) := by
    simp
  rw [hsplit, feedTimed_append, feedTimed_single]
  rw [step_start ⟨co, ⟨[], fe, ft⟩, false⟩ t rfl rfl]
  dsimp only
  rw [feed_frame_tail co fe t d s c p x y z hl]
  by_cases hz : z = 0x55
  · simp [hz]
  · simp [hz]

/-- While idle and not transmitting, a non-sentinel byte is dropped; only
`lastByteTime` is refreshed. -/
lemma step_drop (n : Node) (now b : Nat) (hbuf : n.framer.buf = [])
    (hb : b ≠ 0xAA) (htx : n.txInProgress = false) :
    HAL_UART_RxCpltCallback n now b =
      ({n with framer := {buf := [], expectedLength := n.framer.expectedLength, lastByteTime := now}},
       Effects.nil) := by
  simp [HAL_UART_RxCpltCallback, RS485_ProcessReceivedByte, htx, hbuf, hb]

/-- Any sequence of non-sentinel garbage bytes fed while idle is dropped
without effects; at most the idle timestamp changes. -/
lemma feed_garbage (g : List Nat) : ∀ (n : Node) (t : Nat),
    (∀ b ∈ g, b ≠ 0xAA) →
    n.framer.buf = [] →
    n.txInProgress = false →
    ∃ lb, feedTimed n (g.map fun b => (t, b)) =
      ({n with framer := {buf := [], expectedLength := n.framer.expectedLength, lastByteTime := lb}},
       Effects.nil) := by
  induction g with
  | nil =>
    intro n t _ hbuf htx
    refine ⟨n.framer.lastByteTime, ?_⟩
    obtain ⟨co, ⟨fb, fe, ft⟩, tx⟩ := n
    dsimp only at hbuf
    subst hbuf
    simp [feedTimed]
  | cons b g ih =>
    intro n t hmem hbuf htx
    simp only [List.map_cons, feedTimed]
    rw [step_drop n t b hbuf (hmem b (by simp)) htx]
    dsimp only
    obtain ⟨lb, hlb⟩ := ih ({n with framer := {buf := [], expectedLength := n.framer.expectedLength, lastByteTime := t}}) t
      (fun q hq => hmem q (by simp [hq])) rfl htx
    rw [hlb]
    exact ⟨lb, by simp⟩

/-! ## Packet-layer lemmas -/

/-- Reassembling a 16-bit value from its low byte and high byte the way
`RS485_ProcessPacket` reads the wire checksum. -/
lemma lor_split16 (v : Nat) (hv : v < 2 ^ 16) :
    (v &&& 255) ||| (((v >>> 8) &&& 255) <<< 8) = v := by
  apply Nat.eq_of_testBit_eq
  intro i
  simp only [Nat.testBit_lor, Nat.testBit_and, Nat.testBit_shiftLeft,
    Nat.testBit_shiftRight]
  rw [show (255 : Nat) = 2 ^ 8 - 1 from rfl]
  simp only [Nat.testBit_two_pow_sub_one]
  by_cases h8 : i < 8
  · have : ¬ (8 ≤ i) := by omega
    simp [h8, this]
  · have h8' : 8 ≤ i := by omega
    have hi : 8 + (i - 8) = i := by omega
    by_cases h16 : i < 16
    · have : i - 8 < 8 := by omega
      simp [h8, h8', hi, this]
    · have hbit : v.testBit i = false :=
        Nat.testBit_lt_two_pow (lt_of_lt_of_le hv (Nat.pow_le_pow_right (by norm_num) (by omega)))
      have : ¬ (i - 8 < 8) := by omega
      simp [h8, h8', hi, this, hbit]

lemma getElem!_append_offset (A B : List Nat) (i : Nat) (h : i < B.length) :
    (A ++ B)[A.length + i]! = B[i]! := by
  rw [getElem!_pos (A ++ B) (A.length + i) (by simp; omega), getElem!_pos B i h]
  rw [List.getElem_append_right (by omega)]
  congr 1
  omega

/-- `RS485_ProcessPacket` on a frame produced by `RS485_SendPacket`'s
serializer: the checksum verifies, so the packet either fails the address
filter (and is silently ignored) or is counted and dispatched. -/
lemma processPacket_serialized (co : Core) (d s c : Nat) (p : List Nat)
    (hd : d < 256) (hs : s < 256) (hc : c < 256) (hp : ∀ b ∈ p, b < 256)
    (hl : p.length ≤ 250) :
    RS485_ProcessPacket co (serializeFrame d s c p) =
      if d ≠ co.myAddress ∧ d ≠ 0 then (co, Effects.nil)
      else
        match co.handlers c with
        | some h =>
          let r := runHandler h {co with status := {co.status with rxPacketCount := inc32 co.status.rxPacketCount}} ⟨d, s, c, p.length, p⟩
          (r.1, ⟨r.2.frames, [⟨d, s, c, p.length, p⟩], c :: r.2.handlerCalls⟩)
        | none =>
          let r := RS485_SendError {co with status := {co.status with rxPacketCount := inc32 co.status.rxPacketCount}} s 0x03
          (r.1, ⟨r.2.frames, [⟨d, s, c, p.length, p⟩], []⟩) := by
  have hcrc : RS485_CalculateCRC ([d, s, c, p.length] ++ p) < 2 ^ 16 := by
    apply calculateCRC_lt
    intro b hb
    simp only [List.mem_append, List.mem_cons, List.not_mem_nil, or_false] at hb
    rcases hb with (h | h | h | h) | h
    · omega
    · omega
    · omega
    · subst h; calc p.length ≤ 250 := hl
        _ < 2 ^ 16 := by norm_num
    · exact lt_of_lt_of_le (hp b h) (by norm_num)
  have heq : serializeFrame d s c p
      = ([0xAA, d, s, c, p.length] ++ p)
        ++ [RS485_CalculateCRC ([d, s, c, p.length] ++ p) &&& 0xFF,
            (RS485_CalculateCRC ([d, s, c, p.length] ++ p) >>> 8) &&& 0xFF, 0x55] := rfl
  have hA : ([0xAA, d, s, c, p.length] ++ p).length = 5 + p.length := by
    simp; omega
  have hx : (serializeFrame d s c p)[5 + p.length]! = RS485_CalculateCRC ([d, s, c, p.length] ++ p) &&& 0xFF := by
    rw [heq, show (5 + p.length) = ([0xAA, d, s, c, p.length] ++ p).length + 0 from by simp; omega]
    rw [getElem!_append_offset _ _ 0 (by simp)]
    rfl
  have hy : (serializeFrame d s c p)[5 + p.length + 1]! = (RS485_CalculateCRC ([d, s, c, p.length] ++ p) >>> 8) &&& 0xFF := by
    rw [heq, show (5 + p.length + 1) = ([0xAA, d, s, c, p.length] ++ p).length + 1 from by simp; omega]
    rw [getElem!_append_offset _ _ 1 (by simp)]
    rfl
  have hdata : ((serializeFrame d s c p).drop 5).take p.length = p := by
    rw [heq]
    rw [show ((([0xAA, d, s, c, p.length] ++ p)
          ++ [RS485_CalculateCRC ([d, s, c, p.length] ++ p) &&& 0xFF,
              (RS485_CalculateCRC ([d, s, c, p.length] ++ p) >>> 8) &&& 0xFF, 0x55]).drop 5)
        = p ++ [RS485_CalculateCRC ([d, s, c, p.length] ++ p) &&& 0xFF,
              (RS485_CalculateCRC ([d, s, c, p.length] ++ p) >>> 8) &&& 0xFF, 0x55] from by simp]
    exact List.take_left p _
  have h1 : (serializeFrame d s c p)[1]! = d := by rw [heq]; simp
  have h2 : (serializeFrame d s c p)[2]! = s := by rw [heq]; simp
  have h3 : (serializeFrame d s c p)[3]! = c := by rw [heq]; simp
  have h4 : (serializeFrame d s c p)[4]! = p.length := by rw [heq]; simp
  have hdat : (if 0 < p.length ∧ p.length ≤ 250 then p else []) = p := by
    rcases Nat.eq_zero_or_pos p.length with h | h
    · rw [if_neg (by omega)]
      exact (List.length_eq_zero.mp h).symm
    · rw [if_pos ⟨h, hl⟩]
  unfold RS485_ProcessPacket
  dsimp only
  rw [h1, h2, h3, h4, hdata, hx, hy, lor_split16 _ hcrc]
  rw [if_neg (by simp)]
  by_cases haddr : d ≠ co.myAddress ∧ d ≠ 0
  · rw [if_pos haddr, if_pos haddr]
  · rw [if_neg haddr, if_neg haddr, hdat]

/-- `RS485_ProcessPacket` on a completed frame whose transmitted checksum
bytes do not match the checksum of the received header and payload: the
error counter is incremented and an invalid-checksum error response is
produced, before the destination address is ever examined. -/
lemma processPacket_badcrc (co : Core) (d s c : Nat) (p : List Nat) (x y : Nat)
    (hbad : (x ||| (y <<< 8)) ≠ RS485_CalculateCRC ([d, s, c, p.length] ++ p)) :
    RS485_ProcessPacket co ([0xAA, d, s, c, p.length] ++ p ++ [x, y, 0x55]) =
      RS485_SendError {co with status := {co.status with errorCount := inc32 co.status.errorCount}} s 0x01 := by
  have hx : ([0xAA, d, s, c, p.length] ++ p ++ [x, y, 0x55])[5 + p.length]! = x := by
    rw [show (5 + p.length) = ([0xAA, d, s, c, p.length] ++ p).length + 0 from by simp; omega]
    rw [getElem!_append_offset _ _ 0 (by simp)]
    rfl
  have hy : ([0xAA, d, s, c, p.length] ++ p ++ [x, y, 0x55])[5 + p.length + 1]! = y := by
    rw [show (5 + p.length + 1) = ([0xAA, d, s, c, p.length] ++ p).length + 1 from by simp; omega]
    rw [getElem!_append_offset _ _ 1 (by simp)]
    rfl
  have hdata : (([0xAA, d, s, c, p.length] ++ p ++ [x, y, 0x55]).drop 5).take p.length = p := by
    rw [show ([0xAA, d, s, c, p.length] ++ p ++ [x, y, 0x55]).drop 5 = p ++ [x, y, 0x55] from by simp]
    exact List.take_left p _
  have h1 : ([0xAA, d, s, c, p.length] ++ p ++ [x, y, 0x55])[1]! = d := by simp
  have h2 : ([0xAA, d, s, c, p.length] ++ p ++ [x, y, 0x55])[2]! = s := by simp
  have h3 : ([0xAA, d, s, c, p.length] ++ p ++ [x, y, 0x55])[3]! = c := by simp
  have h4 : ([0xAA, d, s, c, p.length] ++ p ++ [x, y, 0x55])[4]! = p.length := by simp
  unfold RS485_ProcessPacket
  dsimp only
  rw [h1, h2, h3, h4, hdata, hx, hy]
  rw [if_pos (fun h => hbad h.symm)]

/-- Evaluation of `RS485_SendError` (payload `[err, myAddress]`, length 2). -/
lemma sendError_eq (co : Core) (dest err : Nat) :
    RS485_SendError co dest err =
      ({co with status := {co.status with txPacketCount := inc32 co.status.txPacketCount}},
       ⟨[serializeFrame dest co.myAddress 0xFF [err, co.myAddress]], [], []⟩) := by
  simp [RS485_SendError, RS485_SendPacket]

/-- No command handler ever touches the error counter: handlers only send
responses, which on success bump `txPacketCount`. -/
lemma runHandler_errorCount (h : HandlerId) (co : Core) (pkt : RS485_Packet) :
    (runHandler h co pkt).1.status.errorCount = co.status.errorCount := by
  cases h <;>
    simp [runHandler, RS485_HandlePing, RS485_HandleGetVersion,
      RS485_HandleHeartbeat, RS485_HandleGetStatus, RS485_SendResponse,
      RS485_SendPacket, le4, le2]

/-- A serialized frame addressed to the node is dispatched: the assembled
packet carries exactly the original destination, source, command, length
and payload. -/
lemma processPacket_dispatched (co : Core) (d s c : Nat) (p : List Nat)
    (hd : d < 256) (hs : s < 256) (hc : c < 256) (hp : ∀ b ∈ p, b < 256)
    (hl : p.length ≤ 250) (haddr : d = co.myAddress ∨ d = 0) :
    (RS485_ProcessPacket co (serializeFrame d s c p)).2.dispatched = [⟨d, s, c, p.length, p⟩] := by
  rw [processPacket_serialized co d s c p hd hs hc hp hl]
  rw [if_neg (by rcases haddr with h | h <;> simp [h])]
  rcases hh : co.handlers c with _ | h <;> simp [hh]

/-- Processing a valid serialized frame never touches the error counter. -/
lemma processPacket_errorCount (co : Core) (d s c : Nat) (p : List Nat)
    (hd : d < 256) (hs : s < 256) (hc : c < 256) (hp : ∀ b ∈ p, b < 256)
    (hl : p.length ≤ 250) :
    (RS485_ProcessPacket co (serializeFrame d s c p)).1.status.errorCount = co.status.errorCount := by
  rw [processPacket_serialized co d s c p hd hs hc hp hl]
  by_cases haddr : d ≠ co.myAddress ∧ d ≠ 0
  · rw [if_pos haddr]
  · rw [if_neg haddr]
    rcases hh : co.handlers c with _ | h <;> simp [hh]
    · rw [sendError_eq]
    · rw [runHandler_errorCount]

/-- Feeding a serializer-produced frame into an idle framer always reaches
`RS485_ProcessPacket` on exactly that frame (the trailing byte of such a
frame is the 0x55 end sentinel). -/
lemma feed_serialized (n : Node) (t d s c : Nat) (p : List Nat)
    (hl : p.length ≤ 248) (hbuf : n.framer.buf = []) (htx : n.txInProgress = false) :
    feedBytes n t (serializeFrame d s c p) =
      ({n with
         core := (RS485_ProcessPacket n.core (serializeFrame d s c p)).1,
         framer := {buf := [], expectedLength := 0, lastByteTime := t}},
       (RS485_ProcessPacket n.core (serializeFrame d s c p)).2) := by
  have hser : serializeFrame d s c p
      = [0xAA, d, s, c, p.length] ++ p
        ++ [RS485_CalculateCRC ([d, s, c, p.length] ++ p) &&& 0xFF,
            (RS485_CalculateCRC ([d, s, c, p.length] ++ p) >>> 8) &&& 0xFF, 0x55] := rfl
  rw [hser, feed_raw_frame n t d s c p _ _ _ hl hbuf htx, if_pos rfl]

/-! ## Claim theorems -/

/-- Claim C1, counterexample: the claim as stated fails at payload length
249.  A serializer-produced PING frame with a 249-byte payload (257 bytes
on the wire) overruns the 256-byte `packetBuffer` before the completion
check can fire, so the overflow guard discards it: nothing is dispatched,
nothing is transmitted, and one error is counted — the packet is *not*
reproduced. -/
theorem claim_C1_counterexample :
    (feedBytes (RS485_Init 0x02) 1 (serializeFrame 0x02 0x10 0x01 (List.replicate 249 0))).2.dispatched = []
    ∧ (feedBytes (RS485_Init 0x02) 1 (serializeFrame 0x02 0x10 0x01 (List.replicate 249 0))).2.frames = []
    ∧ (feedBytes (RS485_Init 0x02) 1 (serializeFrame 0x02 0x10 0x01 (List.replicate 249 0))).1.core.status.errorCount = 1 := by
  decide

/-- Claim C1, amended (payload bound 250 tightened to 248, the largest
payload whose 8+length-byte frame fits the 256-byte receive buffer): for
every packet with payload length at most 248 whose destination is the
node's address or broadcast, feeding the serializer's byte sequence one
byte at a time into the framer dispatches a packet whose destination,
source, command, length and payload equal the originals exactly. -/
theorem claim_C1_roundtrip_amended (n : Node) (t d s c : Nat) (p : List Nat)
    (hl : p.length ≤ 248) (hd : d < 256) (hs : s < 256) (hc : c < 256)
    (hp : ∀ b ∈ p, b < 256)
    (haddr : d = n.core.myAddress ∨ d = 0)
    (hbuf : n.framer.buf = []) (htx : n.txInProgress = false) :
    (feedBytes n t (serializeFrame d s c p)).2.dispatched = [⟨d, s, c, p.length, p⟩] := by
  rw [feed_serialized n t d s c p hl hbuf htx]
  dsimp only
  exact processPacket_dispatched n.core d s c p hd hs hc hp (by omega) haddr

/-- Witness for the amended C1 at a concrete packet. -/
theorem claim_C1_roundtrip_amended_witness :
    (feedBytes (RS485_Init 0x02) 7 (serializeFrame 0x02 0x10 0x01 [1, 2, 3])).2.dispatched
      = [⟨0x02, 0x10, 0x01, 3, [1, 2, 3]⟩] :=
  claim_C1_roundtrip_amended (RS485_Init 0x02) 7 0x02 0x10 0x01 [1, 2, 3]
    (by decide) (by decide) (by decide) (by decide) (by decide)
    (Or.inl (by decide)) (by decide) (by decide)

/-- Claim C3: a node configured with address 0x02 that receives the frame
`AA 02 10 01 00 01 C9 55` (a PING from master 0x10 with empty payload and
correct checksum 0xC901) transmits exactly the frame
`AA 10 02 02 00 A4 44 55` (a PING_RESPONSE with empty payload, destination
0x10, source 0x02 and correct checksum 0x44A4). -/
theorem claim_C3_ping_scenario :
    RS485_CalculateCRC [0x02, 0x10, 0x01, 0x00] = 0xC901
    ∧ (feedBytes (RS485_Init 0x02) 1 [0xAA, 0x02, 0x10, 0x01, 0x00, 0x01, 0xC9, 0x55]).2.frames
        = [[0xAA, 0x10, 0x02, 0x02, 0x00, 0xA4, 0x44, 0x55]]
    ∧ RS485_CalculateCRC [0x10, 0x02, 0x02, 0x00] = 0x44A4 := by
  decide

/-- Claim C4, counterexample: the claim as stated fails on the rxCount
field.  A freshly initialized node with address 2 answering a GET_STATUS
request reports `rxPacketCount = 1`, not 0, because the dispatcher counts
the request itself before the handler builds the payload: byte 10 of the
16-byte status payload (offset 15 of the response frame) is 1. -/
theorem claim_C4_counterexample :
    (feedBytes (RS485_Init 0x02) 1 (serializeFrame 0x02 0x10 0x10 [])).2.frames
        = [serializeFrame 0x10 0x02 0x11 [2, 100, 0, 0, 0, 0, 0, 0, 0, 0, 1, 0, 0, 0, 0, 0]]
    ∧ (((feedBytes (RS485_Init 0x02) 1 (serializeFrame 0x02 0x10 0x10 [])).2.frames)[0]!)[15]! = 1 := by
  decide

/-- Claim C4, amended (rxCount field corrected from 0 to 1): a freshly
initialized node with no traffic other than the request itself answers a
valid GET_STATUS (0x10) request with a STATUS_RESPONSE (0x11) whose
16-byte payload is `[nodeAddress, 100, uptime as little-endian u32,
0,0,0,0 (errorCount), 1,0,0,0 (rxCount: the request itself is counted
before the handler runs), 0,0 (txCount)]`. -/
theorem claim_C4_status_amended (n : Node) (addr src u t : Nat)
    (ha : addr < 256) (hs : src < 256)
    (haddr : n.core.myAddress = addr)
    (hstat : n.core.status = ⟨addr, 100, u, 0, 0, 0⟩)
    (hh : n.core.handlers 0x10 = some HandlerId.getStatus)
    (hbuf : n.framer.buf = []) (htx : n.txInProgress = false) :
    (feedBytes n t (serializeFrame addr src 0x10 [])).2.frames =
      [serializeFrame src addr 0x11 ([addr, 100] ++ le4 u ++ [0, 0, 0, 0] ++ [1, 0, 0, 0] ++ [0, 0])] := by
  have hinc : inc32 0 = 1 := by decide
  rw [feed_serialized n t addr src 0x10 [] (by decide) hbuf htx]
  dsimp only
  rw [processPacket_serialized n.core addr src 0x10 [] ha hs (by decide) (by decide) (by decide)]
  rw [if_neg (by simp [haddr])]
  rw [hh]
  dsimp only
  simp [runHandler, RS485_HandleGetStatus, RS485_SendResponse, RS485_SendPacket,
    hstat, haddr, hinc, le4, le2]

/-- Witness for the amended C4 at a concrete node. -/
theorem claim_C4_status_amended_witness :
    (feedBytes (RS485_Init 0x02) 9 (serializeFrame 0x02 0x10 0x10 [])).2.frames =
      [serializeFrame 0x10 0x02 0x11 ([0x02, 100] ++ le4 0 ++ [0, 0, 0, 0] ++ [1, 0, 0, 0] ++ [0, 0])] :=
  claim_C4_status_amended (RS485_Init 0x02) 0x02 0x10 0 9
    (by decide) (by decide) (by decide) (by decide) (by decide) (by decide) (by decide)

/-- Claim C5, counterexample: the claim as stated fails on the error
count.  A start sentinel at tick 0 followed, after a 1000-tick gap, by a
complete valid PING frame parses the second frame correctly — but counts
zero framing errors for the abandoned first frame, not one: the timeout
path only resets the parser, it does not touch `errorCount`. -/
theorem claim_C5_counterexample :
    (feedTimed (RS485_Init 0x02) ((0, 0xAA) :: (serializeFrame 0x02 0x10 0x01 []).map fun b => (1000, b))).2.dispatched
        = [⟨0x02, 0x10, 0x01, 0, []⟩]
    ∧ (feedTimed (RS485_Init 0x02) ((0, 0xAA) :: (serializeFrame 0x02 0x10 0x01 []).map fun b => (1000, b))).1.core.status.errorCount = 0 := by
  decide

/-- Claim C5, amended (the abandoned partial frame is discarded silently:
zero framing errors are counted for it, not one): feeding any garbage
bytes (none equal to 0xAA) while idle followed by a valid frame still
dispatches the valid frame; and feeding a start sentinel, letting more
than the 500-tick inter-byte timeout pass, then feeding a fresh valid
frame parses the second frame correctly while leaving the error counter
unchanged. -/
theorem claim_C5_resync_amended :
    (∀ (n : Node) (t : Nat) (g : List Nat) (d s c : Nat) (p : List Nat),
      p.length ≤ 248 → d < 256 → s < 256 → c < 256 → (∀ b ∈ p, b < 256) →
      (d = n.core.myAddress ∨ d = 0) →
      (∀ b ∈ g, b ≠ 0xAA) →
      n.framer.buf = [] → n.txInProgress = false →
      (feedBytes n t (g ++ serializeFrame d s c p)).2.dispatched = [⟨d, s, c, p.length, p⟩])
    ∧ (∀ (n : Node) (t0 t1 d s c : Nat) (p : List Nat),
      p.length ≤ 248 → d < 256 → s < 256 → c < 256 → (∀ b ∈ p, b < 256) →
      (d = n.core.myAddress ∨ d = 0) →
      t1 - t0 > 500 →
      n.framer.buf = [] → n.txInProgress = false →
      (feedTimed n ((t0, 0xAA) :: (serializeFrame d s c p).map fun b => (t1, b))).2.dispatched = [⟨d, s, c, p.length, p⟩]
      ∧ (feedTimed n ((t0, 0xAA) :: (serializeFrame d s c p).map fun b => (t1, b))).1.core.status.errorCount
          = n.core.status.errorCount) := by
  constructor
  · intro n t g d s c p hl hd hs hc hp haddr hg hbuf htx
    unfold feedBytes
    rw [List.map_append, feedTimed_append]
    obtain ⟨lb, hgeq⟩ := feed_garbage g n t hg hbuf htx
    rw [hgeq]
    dsimp only
    show (Effects.nil.app (feedBytes ({n with framer := {buf := [], expectedLength := n.framer.expectedLength, lastByteTime := lb}}) t (serializeFrame d s c p)).2).dispatched
        = [⟨d, s, c, p.length, p⟩]
    rw [feed_serialized ({n with framer := {buf := [], expectedLength := n.framer.expectedLength, lastByteTime := lb}}) t d s c p hl rfl htx]
    simp only [Effects.nil_app]
    exact processPacket_dispatched n.core d s c p hd hs hc hp (by omega) haddr
  · intro n t0 t1 d s c p hl hd hs hc hp haddr hgap hbuf htx
    obtain ⟨co, ⟨fb, fe, ft⟩, tx⟩ := n
    dsimp only at haddr hbuf htx
    subst hbuf htx
    have hser : serializeFrame d s c p
        = [0xAA, d, s, c, p.length] ++ p
          ++ [RS485_CalculateCRC ([d, s, c, p.length] ++ p) &&& 0xFF,
              (RS485_CalculateCRC ([d, s, c, p.length] ++ p) >>> 8) &&& 0xFF, 0x55] := rfl
    rw [show ((t0, 0xAA) :: (serializeFrame d s c p).map fun b => (t1, b))
        = [(t0, 0xAA)] ++ ((serializeFrame d s c p).map fun b => (t1, b)) from rfl]
    rw [feedTimed_append, feedTimed_single]
    rw [step_start ⟨co, ⟨[], fe, ft⟩, false⟩ t0 rfl rfl]
    dsimp only
    rw [hser]
    rw [show (([0xAA, d, s, c, p.length] ++ p
          ++ [RS485_CalculateCRC ([d, s, c, p.length] ++ p) &&& 0xFF,
              (RS485_CalculateCRC ([d, s, c, p.length] ++ p) >>> 8) &&& 0xFF, 0x55]).map fun b => (t1, b))
        = [(t1, 0xAA)] ++ (([d, s, c, p.length] ++ p
          ++ [RS485_CalculateCRC ([d, s, c, p.length] ++ p) &&& 0xFF,
              (RS485_CalculateCRC ([d, s, c, p.length] ++ p) >>> 8) &&& 0xFF, 0x55]).map fun b => (t1, b)) from by simp]
    rw [feedTimed_append, feedTimed_single]
    rw [step_start_timeout ⟨co, ⟨[0xAA], fe, t0⟩, false⟩ t1 (by simp) hgap rfl]
    dsimp only
    rw [feed_frame_tail co 0 t1 d s c p _ _ 0x55 hl]
    rw [if_pos rfl]
    dsimp only
    simp only [Effects.nil_app]
    constructor
    · rw [← hser]
      exact processPacket_dispatched co d s c p hd hs hc hp (by omega) haddr
    · rw [← hser]
      exact processPacket_errorCount co d s c p hd hs hc hp (by omega)

/-- Witness for the amended C5 at concrete inputs: garbage `[1, 2, 3]`
before a PING frame, and a 0xAA at tick 0 followed by a PING frame at
tick 1000. -/
theorem claim_C5_resync_amended_witness :
    (feedBytes (RS485_Init 0x02) 3 ([1, 2, 3] ++ serializeFrame 0x02 0x10 0x01 [])).2.dispatched
        = [⟨0x02, 0x10, 0x01, 0, []⟩]
    ∧ ((feedTimed (RS485_Init 0x02) ((0, 0xAA) :: (serializeFrame 0x02 0x10 0x01 []).map fun b => (1000, b))).2.dispatched
          = [⟨0x02, 0x10, 0x01, 0, []⟩]
      ∧ (feedTimed (RS485_Init 0x02) ((0, 0xAA) :: (serializeFrame 0x02 0x10 0x01 []).map fun b => (1000, b))).1.core.status.errorCount
          = (RS485_Init 0x02).core.status.errorCount) :=
  ⟨claim_C5_resync_amended.1 (RS485_Init 0x02) 3 [1, 2, 3] 0x02 0x10 0x01 []
      (by decide) (by decide) (by decide) (by decide) (by decide)
      (Or.inl (by decide)) (by decide) (by decide) (by decide),
   claim_C5_resync_amended.2 (RS485_Init 0x02) 0 1000 0x02 0x10 0x01 []
      (by decide) (by decide) (by decide) (by decide) (by decide)
      (Or.inl (by decide)) (by decide) (by decide) (by decide)⟩

/-- Claim C6: a well-formed, checksum-valid serialized frame whose
destination is neither the node's address nor broadcast 0x00 is silently
ignored: no handler runs, no packet is counted or dispatched, no error is
counted, and nothing is transmitted — the node is unchanged except for the
framer returning to idle. -/
theorem claim_C6_address_filter (n : Node) (t d s c : Nat) (p : List Nat)
    (hl : p.length ≤ 248) (hd : d < 256) (hs : s < 256) (hc : c < 256)
    (hp : ∀ b ∈ p, b < 256)
    (hne : d ≠ n.core.myAddress) (hnb : d ≠ 0)
    (hbuf : n.framer.buf = []) (htx : n.txInProgress = false) :
    feedBytes n t (serializeFrame d s c p) =
      ({n with framer := {buf := [], expectedLength := 0, lastByteTime := t}},
       Effects.nil) := by
  rw [feed_serialized n t d s c p hl hbuf htx]
  rw [processPacket_serialized n.core d s c p hd hs hc hp (by omega)]
  rw [if_pos ⟨hne, hnb⟩]

/-- Witness for C6: a frame for node 3 fed to node 2 is ignored. -/
theorem claim_C6_address_filter_witness :
    feedBytes (RS485_Init 0x02) 4 (serializeFrame 0x03 0x10 0x01 []) =
      ({RS485_Init 0x02 with framer := {buf := [], expectedLength := 0, lastByteTime := 4}},
       Effects.nil) :=
  claim_C6_address_filter (RS485_Init 0x02) 4 0x03 0x10 0x01 []
    (by decide) (by decide) (by decide) (by decide) (by decide)
    (by decide) (by decide) (by decide) (by decide)

/-- Claim C7: a well-formed, checksum-valid frame addressed to the node
whose command has no registered handler makes the node transmit exactly one
ERROR_RESPONSE (0xFF) to the frame's source, with source field the node's
own address and payload `[0x03 (invalid command), own address]`; no handler
is invoked. -/
theorem claim_C7_unregistered_command (n : Node) (t d s c : Nat) (p : List Nat)
    (hl : p.length ≤ 248) (hd : d < 256) (hs : s < 256) (hc : c < 256)
    (hp : ∀ b ∈ p, b < 256)
    (haddr : d = n.core.myAddress ∨ d = 0)
    (hh : n.core.handlers c = none)
    (hbuf : n.framer.buf = []) (htx : n.txInProgress = false) :
    (feedBytes n t (serializeFrame d s c p)).2.frames
        = [serializeFrame s n.core.myAddress 0xFF [0x03, n.core.myAddress]]
    ∧ (feedBytes n t (serializeFrame d s c p)).2.handlerCalls = [] := by
  rw [feed_serialized n t d s c p hl hbuf htx]
  dsimp only
  rw [processPacket_serialized n.core d s c p hd hs hc hp (by omega)]
  rw [if_neg (by rcases haddr with h | h <;> simp [h])]
  rw [hh]
  dsimp only
  rw [sendError_eq]
  exact ⟨rfl, rfl⟩

/-- Witness for C7: command 0x20 is unregistered after `RS485_Init`. -/
theorem claim_C7_unregistered_command_witness :
    (feedBytes (RS485_Init 0x02) 4 (serializeFrame 0x02 0x10 0x20 [])).2.frames
        = [serializeFrame 0x10 (RS485_Init 0x02).core.myAddress 0xFF [0x03, (RS485_Init 0x02).core.myAddress]]
    ∧ (feedBytes (RS485_Init 0x02) 4 (serializeFrame 0x02 0x10 0x20 [])).2.handlerCalls = [] :=
  claim_C7_unregistered_command (RS485_Init 0x02) 4 0x02 0x10 0x20 []
    (by decide) (by decide) (by decide) (by decide) (by decide)
    (Or.inl (by decide)) (by decide) (by decide) (by decide)

/-- Claim C8: an assembled frame that reaches its expected total length
with a final byte different from the 0x55 end sentinel is discarded: the
error counter is incremented by exactly one (as a `uint32_t`), nothing is
transmitted or dispatched, and the framer resets to idle. -/
theorem claim_C8_wrong_end_sentinel (n : Node) (t d s c : Nat) (p : List Nat) (x y z : Nat)
    (hl : p.length ≤ 248) (hz : z ≠ 0x55)
    (hbuf : n.framer.buf = []) (htx : n.txInProgress = false) :
    feedBytes n t ([0xAA, d, s, c, p.length] ++ p ++ [x, y, z]) =
      ({n with
         core := {n.core with status := {n.core.status with errorCount := inc32 n.core.status.errorCount}},
         framer := {buf := [], expectedLength := 0, lastByteTime := t}},
       Effects.nil) := by
  rw [feed_raw_frame n t d s c p x y z hl hbuf htx, if_neg hz]

/-- Witness for C8: the 8-byte frame `AA 02 10 01 00 07 07 54` with wrong
trailing byte 0x54. -/
theorem claim_C8_wrong_end_sentinel_witness :
    feedBytes (RS485_Init 0x02) 4 ([0xAA, 0x02, 0x10, 0x01, List.length ([] : List Nat)] ++ [] ++ [0x07, 0x07, 0x54]) =
      ({RS485_Init 0x02 with
         core := {(RS485_Init 0x02).core with status := {(RS485_Init 0x02).core.status with errorCount := inc32 (RS485_Init 0x02).core.status.errorCount}},
         framer := {buf := [], expectedLength := 0, lastByteTime := 4}},
       Effects.nil) :=
  claim_C8_wrong_end_sentinel (RS485_Init 0x02) 4 0x02 0x10 0x01 [] 0x07 0x07 0x54
    (by decide) (by decide) (by decide) (by decide)

/-- Claim C9: while a transmission is in progress, every byte delivered to
the receive callback is dropped without modifying the framer state or any
status counter; and in the transmit critical section the `txInProgress`
flag is set before any byte is driven onto the line and cleared only after
the full frame (whose last byte is the 0x55 end sentinel) has been written
and the line returned to receive mode. -/
theorem claim_C9_tx_exclusion :
    (∀ (n : Node) (now b : Nat), n.txInProgress = true →
      HAL_UART_RxCpltCallback n now b = (n, Effects.nil))
    ∧ (∀ (co : Core) (d c : Nat) (data : List Nat), data.length ≤ 250 →
      ∃ pre post, sendPacketActions co d c data
          = BusAction.setTxFlag :: (pre ++ (serializeFrame d co.myAddress c data).map BusAction.txByte ++ post ++ [BusAction.clearTxFlag])
        ∧ BusAction.driverDisable ∈ post ∧ BusAction.enableRxIrq ∈ post
        ∧ (serializeFrame d co.myAddress c data).getLast? = some 0x55) := by
  constructor
  · intro n now b h
    simp [HAL_UART_RxCpltCallback, h]
  · intro co d c data hlen
    refine ⟨[.disableRxIrq, .driverEnable, .settleDelay],
      [.waitTxComplete, .settleDelay, .driverDisable, .enableRxIrq], ?_, by decide, by decide, ?_⟩
    · unfold sendPacketActions
      rw [if_neg (by omega)]
      simp
    · rw [show serializeFrame d co.myAddress c data
          = ([0xAA, d, co.myAddress, c, data.length] ++ data
              ++ [RS485_CalculateCRC ([d, co.myAddress, c, data.length] ++ data) &&& 0xFF,
                  (RS485_CalculateCRC ([d, co.myAddress, c, data.length] ++ data) >>> 8) &&& 0xFF]) ++ [0x55] from by
        simp [serializeFrame]]
      exact List.getLast?_concat _

/-- Witness for C9: a node with the flag set drops byte 7, and the action
trace of sending an empty PING_RESPONSE has the required shape. -/
theorem claim_C9_tx_exclusion_witness :
    HAL_UART_RxCpltCallback ⟨(RS485_Init 0x02).core, (RS485_Init 0x02).framer, true⟩ 5 7
        = (⟨(RS485_Init 0x02).core, (RS485_Init 0x02).framer, true⟩, Effects.nil)
    ∧ (∃ pre post, sendPacketActions (RS485_Init 0x02).core 0x10 0x02 []
          = BusAction.setTxFlag :: (pre ++ (serializeFrame 0x10 (RS485_Init 0x02).core.myAddress 0x02 []).map BusAction.txByte ++ post ++ [BusAction.clearTxFlag])
        ∧ BusAction.driverDisable ∈ post ∧ BusAction.enableRxIrq ∈ post
        ∧ (serializeFrame 0x10 (RS485_Init 0x02).core.myAddress 0x02 []).getLast? = some 0x55) :=
  ⟨claim_C9_tx_exclusion.1 ⟨(RS485_Init 0x02).core, (RS485_Init 0x02).framer, true⟩ 5 7 rfl,
   claim_C9_tx_exclusion.2 (RS485_Init 0x02).core 0x10 0x02 [] (by decide)⟩

/-- Claim C10: the checksum is verified before the destination filter: a
completed frame with an invalid checksum — no matter its destination, in
particular one addressed to another node — increments the error counter
and is answered with an invalid-checksum (0x01) ERROR_RESPONSE to the
frame's source, rather than being silently ignored. -/
theorem claim_C10_checksum_before_address (n : Node) (t d s c : Nat) (p : List Nat) (x y : Nat)
    (hl : p.length ≤ 248)
    (hbad : (x ||| (y <<< 8)) ≠ RS485_CalculateCRC ([d, s, c, p.length] ++ p))
    (hbuf : n.framer.buf = []) (htx : n.txInProgress = false) :
    feedBytes n t ([0xAA, d, s, c, p.length] ++ p ++ [x, y, 0x55]) =
      ({n with
         core := {n.core with status := {n.core.status with errorCount := inc32 n.core.status.errorCount, txPacketCount := inc32 n.core.status.txPacketCount}},
         framer := {buf := [], expectedLength := 0, lastByteTime := t}},
       ⟨[serializeFrame s n.core.myAddress 0xFF [0x01, n.core.myAddress]], [], []⟩) := by
  rw [feed_raw_frame n t d s c p x y 0x55 hl hbuf htx, if_pos rfl]
  rw [processPacket_badcrc n.core d s c p x y hbad, sendError_eq]

/-- Witness for C10: frame for foreign node 3 with zeroed checksum bytes
fed to node 2 still draws the invalid-checksum error response. -/
theorem claim_C10_checksum_before_address_witness :
    feedBytes (RS485_Init 0x02) 4 ([0xAA, 0x03, 0x10, 0x01, List.length ([] : List Nat)] ++ [] ++ [0x00, 0x00, 0x55]) =
      ({RS485_Init 0x02 with
         core := {(RS485_Init 0x02).core with status := {(RS485_Init 0x02).core.status with errorCount := inc32 (RS485_Init 0x02).core.status.errorCount, txPacketCount := inc32 (RS485_Init 0x02).core.status.txPacketCount}},
         framer := {buf := [], expectedLength := 0, lastByteTime := 4}},
       ⟨[serializeFrame 0x10 (RS485_Init 0x02).core.myAddress 0xFF [0x01, (RS485_Init 0x02).core.myAddress]], [], []⟩) :=
  claim_C10_checksum_before_address (RS485_Init 0x02) 4 0x03 0x10 0x01 [] 0x00 0x00
    (by decide) (by decide) (by decide) (by decide)

end Enersion
